import Mathlib

/-!
Verification of the `crawler` repository's core components against its
natural-language specification.

The Python source is shallowly embedded: pure functions become Lean
functions on `List Char` / `String`, stateful classes become explicit
state-passing over structures, network I/O becomes oracle parameters,
and wall-clock time becomes an explicit `Rat` argument.
-/

namespace Crawler

/-! ## URL normalization (`CrawlerQueue._normalize_url`, `AsyncCrawler._normalize_url`)

Python (identical in `queue_manager.py` and `fetcher.py`):
```
if '#' in url: url = url.split('#')[0]
if url.endswith('/') and len(url) > 1: url = url.rstrip('/')
```
-/

/-- `url.split('#')[0]`: the characters before the first `'#'` (the whole
string when `'#'` is absent, which matches the guarded Python form). -/
def stripFragment (l : List Char) : List Char :=
  l.takeWhile (fun c => c ≠ '#')

/-- `url.rstrip('/')`: remove every trailing `'/'`. -/
def rstripSlash (l : List Char) : List Char :=
  (l.reverse.dropWhile (fun c => c = '/')).reverse

/-- `_normalize_url` on character lists: strip the fragment, then strip
trailing slashes when the string ends with `'/'` and has length > 1. -/
def normalizeChars (l : List Char) : List Char :=
  let t := stripFragment l
  if t.getLast? = some '/' ∧ 1 < t.length then rstripSlash t else t

/-- `CrawlerQueue._normalize_url` (queue_manager.py lines 71-92). -/
def CrawlerQueue.normalize_url (s : String) : String :=
  ⟨normalizeChars s.data⟩

/-- `AsyncCrawler._normalize_url` (fetcher.py lines 437-455); the body is
character-for-character the same as the frontier's. -/
def AsyncCrawler.normalize_url (s : String) : String :=
  ⟨normalizeChars s.data⟩

/-! ## Frontier (`CrawlerQueue`, queue_manager.py)

Python dictionaries and sets are embedded as insertion-ordered lists:
`_queued_urls` (a set) holds no duplicates because insertion is guarded,
`_processed_urls` is kept as its key set (the stored page-record values
are irrelevant to every claim), and `_failed_urls` keeps its error
strings.  `_priority_queues` is the `defaultdict(list)` as an
association list.
-/

structure CrawlerQueue where
  priority_queues : List (Int × List String)
  queued_urls : List String
  processed_count : Nat
  failed_count : Nat
  processed_urls : List String
  failed_urls : List (String × String)

/-- A fresh `CrawlerQueue()`. -/
def CrawlerQueue.empty : CrawlerQueue :=
  ⟨[], [], 0, 0, [], []⟩

/-- `self._priority_queues[priority].append(url)` on a `defaultdict(list)`:
append to the bucket, creating it when absent. -/
def pqAppend (pqs : List (Int × List String)) (p : Int) (u : String) :
    List (Int × List String) :=
  if pqs.any (fun e => e.1 == p) then
    pqs.map (fun e => if e.1 = p then (e.1, e.2 ++ [u]) else e)
  else pqs ++ [(p, [u])]

/-- Replace the bucket of key `p` by `l`. -/
def pqSet (pqs : List (Int × List String)) (p : Int) (l : List String) :
    List (Int × List String) :=
  pqs.map (fun e => if e.1 = p then (e.1, l) else e)

/-- `del self._priority_queues[p]`. -/
def pqDelete (pqs : List (Int × List String)) (p : Int) :
    List (Int × List String) :=
  pqs.filter (fun e => !(e.1 == p))

/-- `max(self._priority_queues.keys())`, `none` when there are no keys. -/
def pqMaxKey (pqs : List (Int × List String)) : Option Int :=
  match pqs.map Prod.fst with
  | [] => none
  | k :: ks => some (ks.foldl max k)

/-- `set.add` for the embedded string sets. -/
def setAdd (s : List String) (x : String) : List String :=
  if x ∈ s then s else s ++ [x]

/-- `dict[k] = v` upsert for the embedded `_failed_urls` dictionary. -/
def dictSet (d : List (String × String)) (k v : String) :
    List (String × String) :=
  if d.any (fun e => e.1 == k) then
    d.map (fun e => if e.1 = k then (k, v) else e)
  else d ++ [(k, v)]

/-- `CrawlerQueue.add_url` (queue_manager.py lines 46-69): normalize, refuse
when the normalized URL is already queued, else append to the priority
bucket and the queued set.  Returns the Python boolean and the new state. -/
def CrawlerQueue.add_url (q : CrawlerQueue) (url : String) (priority : Int) :
    Bool × CrawlerQueue :=
  let n := CrawlerQueue.normalize_url url
  if n ∈ q.queued_urls then (false, q)
  else
    (true,
     { q with
        priority_queues := pqAppend q.priority_queues priority n
        queued_urls := q.queued_urls ++ [n] })

/-- `CrawlerQueue.get_next` (queue_manager.py lines 94-127): pop the first
URL of the maximal-priority bucket, delete the bucket when it empties. -/
def CrawlerQueue.get_next (q : CrawlerQueue) : Option String × CrawlerQueue :=
  if q.queued_urls.isEmpty then (none, q)
  else if q.priority_queues.isEmpty then (none, q)
  else
    match pqMaxKey q.priority_queues with
    | none => (none, q)
    | some maxp =>
      match q.priority_queues.lookup maxp with
      | some (url :: rest) =>
        let pqs :=
          if rest.isEmpty then pqDelete q.priority_queues maxp
          else pqSet q.priority_queues maxp rest
        (some url,
         { q with
            priority_queues := pqs
            queued_urls := q.queued_urls.filter (fun u => !(u == url)) })
      | _ => (none, q)

/-- `CrawlerQueue.mark_processed` (lines 129-145): bump the event counter and
upsert the normalized URL into the processed dictionary (key set here). -/
def CrawlerQueue.mark_processed (q : CrawlerQueue) (url : String) : CrawlerQueue :=
  let n := CrawlerQueue.normalize_url url
  { q with
      processed_count := q.processed_count + 1
      processed_urls := setAdd q.processed_urls n }

/-- `CrawlerQueue.mark_failed` (lines 147-159). -/
def CrawlerQueue.mark_failed (q : CrawlerQueue) (url error : String) : CrawlerQueue :=
  let n := CrawlerQueue.normalize_url url
  { q with
      failed_count := q.failed_count + 1
      failed_urls := dictSet q.failed_urls n error }

/-- The dictionary returned by `CrawlerQueue.get_stats` (lines 161-181). -/
structure QueueStats where
  queued : Nat
  processed : Nat
  failed : Nat
  total : Nat
  processed_urls : Nat
  failed_urls : Nat
  deriving DecidableEq, Repr

/-- `CrawlerQueue.get_stats`. -/
def CrawlerQueue.get_stats (q : CrawlerQueue) : QueueStats :=
  let queued_count := q.queued_urls.length
  { queued := queued_count
    processed := q.processed_count
    failed := q.failed_count
    total := queued_count + q.processed_count + q.failed_count
    processed_urls := q.processed_urls.length
    failed_urls := q.failed_urls.length }

/-- `CrawlerQueue.is_visited` (lines 183-194). -/
def CrawlerQueue.is_visited (q : CrawlerQueue) (url : String) : Bool :=
  let n := CrawlerQueue.normalize_url url
  q.processed_urls.contains n || q.failed_urls.any (fun e => e.1 == n)

/-- One frontier operation, for quantifying over operation sequences. -/
inductive QueueOp where
  | add (url : String) (priority : Int)
  | next
  | markProcessed (url : String)
  | markFailed (url : String) (error : String)

/-- Apply one operation (the value returned to the caller is dropped). -/
def CrawlerQueue.applyOp (q : CrawlerQueue) : QueueOp → CrawlerQueue
  | .add url p => (q.add_url url p).2
  | .next => q.get_next.2
  | .markProcessed url => q.mark_processed url
  | .markFailed url e => q.mark_failed url e

/-- Run a sequence of frontier operations from the fresh queue. -/
def runOps (ops : List QueueOp) : CrawlerQueue :=
  ops.foldl CrawlerQueue.applyOp CrawlerQueue.empty

/-! ## Error taxonomy (retry.py) and response classification (fetcher.py)

The four exception classes become one sum type carrying `str(e)`.
-/

/-- The classified errors raised by the crawler (retry.py lines 23-40). -/
inductive CrawlError where
  | transient (msg : String)
  | permanent (msg : String)
  | network (msg : String)
  | parseFailure (msg : String)
  deriving DecidableEq, Repr

/-- `str(e)` of a classified error. -/
def CrawlError.message : CrawlError → String
  | .transient m => m
  | .permanent m => m
  | .network m => m
  | .parseFailure m => m

/-- What one `_request_once` call does with a received HTTP response
(fetcher.py lines 279-290): either the success dictionary or a raised
classified error. -/
inductive FetchOutcome where
  | ok (url : String) (status : Nat) (text : String) (content_type : String)
  | raised (e : CrawlError)
  deriving DecidableEq, Repr

/-- The status classification inside `AsyncCrawler._request_once`:
`429/503/500 → TransientError`, `404/403/401 → PermanentError`,
other 4xx → `PermanentError`, everything else is returned as success. -/
def classify_response (url : String) (status : Nat) (text content_type : String) :
    FetchOutcome :=
  if status = 429 ∨ status = 503 ∨ status = 500 then
    .raised (.transient ("HTTP " ++ toString status))
  else if status = 404 ∨ status = 403 ∨ status = 401 then
    .raised (.permanent ("HTTP " ++ toString status))
  else if 400 ≤ status ∧ status < 500 then
    .raised (.permanent ("HTTP " ++ toString status))
  else
    .ok url status text content_type

/-! ## Retry executor (`RetryStrategy`, retry.py lines 43-131)

`execute_with_retry` is embedded over an attempt oracle
`op : Nat → Except CrawlError α` (the coroutine called with
`attempt=i`); `retry_on` becomes a predicate on the sum type, and the
recorded `retry_delays` are returned alongside the outcome.
-/

structure RetryStrategy where
  max_retries : Nat
  backoff_factor : Rat
  base_delay : Rat
  retry_on : CrawlError → Bool

/-- The `retry_on=[TransientError, NetworkError]` list used by both the
default constructor and the fetcher: `_should_retry` is the isinstance
test against it. -/
def default_retry_on : CrawlError → Bool
  | .transient _ => true
  | .network _ => true
  | _ => false

/-- The retry loop of `execute_with_retry` from a given attempt index,
carrying the `retry_delays` recorded so far. -/
def RetryStrategy.run_from (rs : RetryStrategy) (op : Nat → Except CrawlError α) :
    Nat → List Rat → Except CrawlError α × List Rat := fun attempt delays =>
  match op attempt with
  | .ok a => (.ok a, delays)
  | .error e =>
    if h : rs.max_retries ≤ attempt ∨ rs.retry_on e = false then (.error e, delays)
    else
      let d := rs.base_delay * rs.backoff_factor ^ attempt
      rs.run_from op (attempt + 1) (delays ++ [d])
termination_by attempt => rs.max_retries - attempt
decreasing_by
  obtain ⟨h1, h2⟩ := not_or.mp h
  omega

/-- `RetryStrategy.execute_with_retry` starting at attempt 0 with an empty
delay log (the strategy objects in the claims are freshly constructed). -/
def RetryStrategy.execute_with_retry (rs : RetryStrategy)
    (op : Nat → Except CrawlError α) : Except CrawlError α × List Rat :=
  rs.run_from op 0 []

/-! ## Rate limiter (`RateLimiter`, rate_limiter.py lines 21-121)

Wall-clock time and the `random.uniform(0, jitter)` sample become
explicit `Rat` arguments; sleeping for `s` advances time by `s`.
-/

structure RateLimiter where
  per_domain : Bool
  interval : Rat
  min_delay : Rat
  jitter : Rat
  backoff_base : Rat
  backoff_factor : Rat
  backoff_max : Rat
  last_call : List (String × Rat)
  error_counts : List (String × Nat)
  delays : List Rat

/-- `RateLimiter.__init__`: `interval = 1/rps` when `rps > 0` else `0`,
empty per-bucket tables. -/
def RateLimiter.init (requests_per_second : Rat) (per_domain : Bool)
    (min_delay jitter backoff_base backoff_factor backoff_max : Rat) : RateLimiter :=
  { per_domain := per_domain
    interval := if 0 < requests_per_second then 1 / requests_per_second else 0
    min_delay := min_delay
    jitter := jitter
    backoff_base := backoff_base
    backoff_factor := backoff_factor
    backoff_max := backoff_max
    last_call := []
    error_counts := []
    delays := [] }

/-- `_bucket_key`: the domain when per-domain and the domain string is
truthy (non-empty), otherwise `"global"`. -/
def RateLimiter.bucket_key (rl : RateLimiter) (domain : Option String) : String :=
  match domain with
  | some d => if rl.per_domain = true ∧ d ≠ "" then d else "global"
  | none => "global"

/-- Generic `dict[k] = v` upsert keyed by strings. -/
def dictUpsert {β : Type} (d : List (String × β)) (k : String) (v : β) :
    List (String × β) :=
  if d.any (fun e => e.1 == k) then
    d.map (fun e => if e.1 = k then (k, v) else e)
  else d ++ [(k, v)]

/-- `dict.get(k, dflt)`. -/
def dictGetD {β : Type} (d : List (String × β)) (k : String) (dflt : β) : β :=
  (d.lookup k).getD dflt

/-- `RateLimiter.record_error`. -/
def RateLimiter.record_error (rl : RateLimiter) (domain : Option String) : RateLimiter :=
  let key := rl.bucket_key domain
  { rl with error_counts := dictUpsert rl.error_counts key (dictGetD rl.error_counts key 0 + 1) }

/-- `RateLimiter.record_success`. -/
def RateLimiter.record_success (rl : RateLimiter) (domain : Option String) : RateLimiter :=
  let key := rl.bucket_key domain
  { rl with error_counts := dictUpsert rl.error_counts key 0 }

/-- `RateLimiter._compute_sleep` (lines 76-106) at time `now` with the
drawn jitter sample: `max(0, wait_for_rate, wait_for_min)`, plus the
jitter sample when `jitter > 0`, then **maxed** with the capped error
backoff when `backoff_base > 0` and the bucket has recorded errors. -/
def RateLimiter.compute_sleep (rl : RateLimiter) (key : String)
    (now jitter_sample : Rat) : Rat :=
  let last := dictGetD rl.last_call key 0
  let wait_for_rate := rl.interval - (now - last)
  let wait_for_min := rl.min_delay - (now - last)
  let wait_time := max 0 (max wait_for_rate wait_for_min)
  let wait_time := if 0 < rl.jitter then wait_time + jitter_sample else wait_time
  let error_count := dictGetD rl.error_counts key 0
  if 0 < rl.backoff_base ∧ 0 < error_count then
    max wait_time (min (rl.backoff_base * rl.backoff_factor ^ (error_count - 1)) rl.backoff_max)
  else wait_time

/-- `RateLimiter.acquire` (lines 108-121): compute the sleep, sleep when
positive, record `last_call = time-after-sleep`, append to `delays`. -/
def RateLimiter.acquire (rl : RateLimiter) (domain : Option String)
    (now jitter_sample : Rat) : RateLimiter :=
  let key := rl.bucket_key domain
  let s := rl.compute_sleep key now jitter_sample
  let after := if 0 < s then now + s else now
  { rl with
      last_call := dictUpsert rl.last_call key after
      delays := rl.delays ++ [s] }

/-! ## Domain extraction (`_get_domain`)

`AsyncCrawler._get_domain` and `RobotsParser._get_domain` are the same
code: `urlparse(url).netloc or path-head`, port stripped, lowercased.
`urllib.parse.urlparse` is standard-library code outside this
repository; its netloc extraction is embedded for URLs of the shape
`scheme://host[:port]/...` (netloc = the run after the first `"://"` up
to `'/'`) with the source's `parsed.path.split('/')[0]` fallback when
no `"://"` occurs.
-/

/-- The characters after the first `"://"`, when one occurs. -/
def afterSchemeSep : List Char → Option (List Char)
  | ':' :: '/' :: '/' :: rest => some rest
  | _ :: rest => afterSchemeSep rest
  | [] => none

/-- `urlparse(url).netloc or parsed.path.split('/')[0]`. -/
def netlocChars (l : List Char) : List Char :=
  match afterSchemeSep l with
  | some rest => rest.takeWhile (fun c => c ≠ '/')
  | none => l.takeWhile (fun c => c ≠ '/')

/-- `_get_domain`: netloc, then `split(':')[0]`, then `.lower()`. -/
def get_domain (url : String) : String :=
  let d := netlocChars url.data
  let d := d.takeWhile (fun c => c ≠ ':')
  ⟨d.map Char.toLower⟩

/-! ## Robots cache (`RobotsParser`, rate_limiter.py lines 124-207)

The stdlib `RobotFileParser` is opaque to every claim: a cached entry is
embedded as its decision function.  The network is an oracle
`net : String → NetReply`; each call of the oracle is one issued
`robots.txt` request, and the embedded functions return the list of
robots URLs they fetched so the claims can count network traffic.
-/

/-- A parsed robots.txt entry: `can_fetch(user_agent, url)`. -/
structure RobotRules where
  canFetchFn : String → String → Bool

/-- What `session.get(robots_url)` produces: an HTTP reply whose body
parses to `rules`, or a raised exception. -/
inductive NetReply where
  | response (status : Nat) (rules : RobotRules)
  | exn

structure RobotsParser where
  user_agent : String
  cache : List (String × RobotRules)

/-- `url.rstrip('/')` on strings. -/
def rstripSlashStr (s : String) : String :=
  ⟨rstripSlash s.data⟩

/-- `RobotsParser.fetch_robots` (lines 146-178): serve from the cache, else
issue one GET of `base_url.rstrip('/') + "/robots.txt"`; on an exception
or a status ≥ 400 return `none` **without caching anything**; on success
parse and cache.  The third component lists the robots URLs fetched. -/
def RobotsParser.fetch_robots (rp : RobotsParser) (base_url : String)
    (net : String → NetReply) : Option RobotRules × RobotsParser × List String :=
  let domain := get_domain base_url
  match rp.cache.lookup domain with
  | some p => (some p, rp, [])
  | none =>
    let robots_url := rstripSlashStr base_url ++ "/robots.txt"
    match net robots_url with
    | .exn => (none, rp, [robots_url])
    | .response status rules =>
      if 400 ≤ status then (none, rp, [robots_url])
      else (some rules, { rp with cache := rp.cache ++ [(domain, rules)] }, [robots_url])

/-- `RobotsParser.can_fetch` (lines 180-193): use the cached entry, else
call `fetch_robots ("https://" + domain)`; when that yields nothing,
allow the URL. -/
def RobotsParser.can_fetch (rp : RobotsParser) (url : String)
    (net : String → NetReply) (user_agent : Option String) :
    Bool × RobotsParser × List String :=
  let domain := get_domain url
  let ua := user_agent.getD rp.user_agent
  match rp.cache.lookup domain with
  | some p => (p.canFetchFn ua url, rp, [])
  | none =>
    match rp.fetch_robots ("https://" ++ domain) net with
    | (none, rp2, log) => (true, rp2, log)
    | (some p, rp2, log) => (p.canFetchFn ua url, rp2, log)

/-! ## Circuit breaker and `fetch_url` admission (fetcher.py)

`AsyncCrawler.circuit_state` is `{domain: {"fail_count", "open_until"}}`;
`time.time()` becomes an explicit `now : Rat`.  `fetch_url` is embedded
over the outcome of its retry pipeline: the retry executor's attempt
oracle stands for `_request_once`, and the embedded result carries how
many HTTP attempts were issued (0 when admission rejects the URL).
-/

structure CircuitInfo where
  fail_count : Nat
  open_until : Rat
  deriving DecidableEq, Repr

/-- The breaker-relevant fields of `AsyncCrawler`. -/
structure Breaker where
  threshold : Nat
  cooldown : Rat
  circuit_state : List (String × CircuitInfo)
  deriving DecidableEq, Repr

/-- `AsyncCrawler._circuit_is_open` (lines 387-392). -/
def Breaker.circuit_is_open (b : Breaker) (domain : String) (now : Rat) : Bool :=
  match b.circuit_state.lookup domain with
  | none => false
  | some st => decide (now < st.open_until)

/-- `AsyncCrawler._record_failure` (lines 394-406): `setdefault`, increment
`fail_count`, and open the breaker for `cooldown` once the count reaches
the threshold. -/
def Breaker.record_failure (b : Breaker) (domain : String) (now : Rat) : Breaker :=
  let st := dictGetD b.circuit_state domain ⟨0, 0⟩
  let st := { st with fail_count := st.fail_count + 1 }
  let st :=
    if b.threshold ≤ st.fail_count then { st with open_until := now + b.cooldown }
    else st
  { b with circuit_state := dictUpsert b.circuit_state domain st }

/-- `AsyncCrawler._record_success` (lines 408-412): reset both fields when
the domain is tracked. -/
def Breaker.record_success (b : Breaker) (domain : String) : Breaker :=
  match b.circuit_state.lookup domain with
  | none => b
  | some _ => { b with circuit_state := dictUpsert b.circuit_state domain ⟨0, 0⟩ }

/-- The payload of a successful `_request_once`. -/
structure HttpSuccess where
  status : Nat
  text : String
  content_type : String
  deriving DecidableEq, Repr

/-- The dictionary `fetch_url` returns. -/
inductive FetchResult where
  | errorResult (url msg : String)
  | okResult (url : String) (status : Nat) (text content_type : String)
  deriving DecidableEq, Repr

/-- `AsyncCrawler.fetch_url` (lines 184-220): circuit-breaker admission,
robots admission, then the retry pipeline; success resets the breaker,
failure records one breaker failure.  The returned `Nat` counts the HTTP
attempts issued (one per pipeline attempt, none on admission rejection);
`robots_allowed` is the outcome of `_is_allowed_by_robots url`. -/
def AsyncCrawler.fetch_url (b : Breaker) (rs : RetryStrategy)
    (respect_robots robots_allowed : Bool) (url : String) (now : Rat)
    (op : Nat → Except CrawlError HttpSuccess) :
    FetchResult × Breaker × Nat :=
  let domain := get_domain url
  if b.circuit_is_open domain now then (.errorResult url "circuit_open", b, 0)
  else if respect_robots && !robots_allowed then
    (.errorResult url "blocked_by_robots", b, 0)
  else
    match rs.execute_with_retry op with
    | (.ok payload, delays) =>
      (.okResult url payload.status payload.text payload.content_type,
       b.record_success domain, delays.length + 1)
    | (.error e, delays) =>
      (.errorResult url e.message, b.record_failure domain now, delays.length + 1)

/-! ## The crawl loop (`AsyncCrawler.crawl`, fetcher.py lines 486-681)

Sequential semantics: each dequeued URL is processed to completion
before the next dequeue (one worker).  Fetch-and-parse is an oracle
`pages : String → PageReply` giving, per URL, either the extracted links
of a successful fetch or the error string of a failed one.  Regex
patterns are embedded as string predicates.
-/

structure CrawlConfig where
  max_depth : Nat
  same_domain_only : Bool
  exclude_patterns : List (String → Bool)
  include_patterns : List (String → Bool)

inductive PageReply where
  | page (links : List String)
  | failure (msg : String)

structure CrawlState where
  queue : CrawlerQueue
  visited_urls : List String
  url_depths : List (String × Nat)

/-- `AsyncCrawler._should_process_url` (lines 335-374): depth check
(`current_depth >= max_depth → reject`), visited/known check, same-domain
filter, exclude patterns, include patterns. -/
def AsyncCrawler.should_process_url (cfg : CrawlConfig) (queue : CrawlerQueue)
    (visited : List String) (url : String) (current_depth : Nat)
    (start_domains : List String) : Bool :=
  if cfg.max_depth ≤ current_depth then false
  else
    let normalized := AsyncCrawler.normalize_url url
    if visited.contains normalized || queue.is_visited normalized then false
    else if cfg.same_domain_only && !(start_domains.contains (get_domain url)) then false
    else if cfg.exclude_patterns.any (fun p => p url) then false
    else if !cfg.include_patterns.isEmpty && !(cfg.include_patterns.any (fun p => p url)) then
      false
    else true

/-- The child-link enqueue loop of `process_url` (lines 610-626):
normalize, filter, `add_url` with `priority = -(depth+1)`, record the
depth of newly added URLs. -/
def processLinks (cfg : CrawlConfig) (start_domains : List String) (depth : Nat)
    (st : CrawlState) (links : List String) : CrawlState :=
  links.foldl
    (fun acc link =>
      let normalized_link := AsyncCrawler.normalize_url link
      if AsyncCrawler.should_process_url cfg acc.queue acc.visited_urls
          normalized_link (depth + 1) start_domains then
        let r := acc.queue.add_url normalized_link (-(depth + 1 : Int))
        { acc with
            queue := r.2
            url_depths :=
              if r.1 then dictUpsert acc.url_depths normalized_link (depth + 1)
              else acc.url_depths }
      else acc)
    st

/-- The body of one worker task `process_url` (lines 576-648): fetch and
parse through the oracle, mark failed or processed, then enqueue child
links. -/
def process_url (cfg : CrawlConfig) (start_domains : List String)
    (pages : String → PageReply) (st : CrawlState) (url : String) (depth : Nat) :
    CrawlState :=
  match pages url with
  | .failure msg => { st with queue := st.queue.mark_failed url msg }
  | .page links =>
      let st2 := { st with queue := st.queue.mark_processed url }
      processLinks cfg start_domains depth st2 links

/-- The main `while True` loop of `crawl` (lines 544-660), sequentialized
and fuelled: dequeue, stop when empty, stop when `processed >= max_pages`
(the dequeued URL is dropped, as in the source), else mark visited and
process. -/
def crawl_loop (cfg : CrawlConfig) (start_domains : List String)
    (pages : String → PageReply) (max_pages : Nat) :
    Nat → CrawlState → CrawlState
  | 0, st => st
  | fuel + 1, st =>
    match st.queue.get_next with
    | (none, _) => st
    | (some url, q2) =>
      if max_pages ≤ q2.get_stats.processed then { st with queue := q2 }
      else
        let depth := dictGetD st.url_depths url 0
        let st2 : CrawlState :=
          { st with queue := q2, visited_urls := setAdd st.visited_urls url }
        crawl_loop cfg start_domains pages max_pages fuel
          (process_url cfg start_domains pages st2 url depth)

/-- `AsyncCrawler.crawl`: seed the frontier (normalized, priority 0, depth
0), then run the loop. -/
def AsyncCrawler.crawl (cfg : CrawlConfig) (pages : String → PageReply)
    (start_urls : List String) (max_pages fuel : Nat) : CrawlState :=
  let start_domains := start_urls.map get_domain
  let init : CrawlState :=
    start_urls.foldl
      (fun st u =>
        let normalized := AsyncCrawler.normalize_url u
        let r := st.queue.add_url normalized 0
        { st with
            queue := r.2
            url_depths :=
              if r.1 then dictUpsert st.url_depths normalized 0 else st.url_depths })
      ⟨CrawlerQueue.empty, [], []⟩
  crawl_loop cfg start_domains pages max_pages fuel init

/-! ### The §8 depth-limit scenario as a concrete input

Seeds `["http://a/"]`, `max_depth = 1`; page `/` links to `/x` and
`/x#frag`; page `/x` links to `/y`; every other URL 404s.
-/

def depthScenarioCfg : CrawlConfig :=
  ⟨1, false, [], []⟩

def depthScenarioPages : String → PageReply := fun url =>
  if url = "http://a" then .page ["http://a/x", "http://a/x#frag"]
  else if url = "http://a/x" then .page ["http://a/y"]
  else .failure "HTTP 404"

def depthScenarioResult : CrawlState :=
  AsyncCrawler.crawl depthScenarioCfg depthScenarioPages ["http://a/"] 100 10

/-! ### Concrete instances used by the claim witnesses and counterexamples -/

/-- Does a `QueueOp` record a `mark_processed` call? -/
def QueueOp.isMarkProcessed : QueueOp → Bool
  | .markProcessed _ => true
  | _ => false

/-- Does a `QueueOp` record a `mark_failed` call? -/
def QueueOp.isMarkFailed : QueueOp → Bool
  | .markFailed _ _ => true
  | _ => false

/-- Frontier state after `add_url "http://a/x"`, a dequeue, and
`mark_processed "http://a/x"`: the URL sits in the processed set and in
no other set. -/
def processedThenState : CrawlerQueue :=
  ((CrawlerQueue.empty.add_url "http://a/x" 0).2.get_next.2).mark_processed "http://a/x"

/-- A robots.txt network that always answers 404 (`status ≥ 400`). -/
def robots404Net : String → NetReply :=
  fun _ => .response 404 ⟨fun _ _ => false⟩

/-- First `can_fetch` against the 404 network from an empty cache. -/
def robotsFirstCall : Bool × RobotsParser × List String :=
  (RobotsParser.mk "UA" []).can_fetch "http://h/x" robots404Net none

/-- Second `can_fetch` for the same host, continuing from the first. -/
def robotsSecondCall : Bool × RobotsParser × List String :=
  robotsFirstCall.2.1.can_fetch "http://h/x" robots404Net none

/-- Is a robots.txt reply the failure case of the spec (`fetch error or
status ≥ 400`)? -/
def robotsFailed : NetReply → Bool
  | .exn => true
  | .response status _ => 400 ≤ status

/-- A rate limiter mid-crawl: interval 1s, no jitter, `backoff_base = 1`,
factor 2, cap 5, last request to `"h"` at t = 10, 4 recorded errors. -/
def backoffLimiter : RateLimiter :=
  ⟨true, 1, 0, 0, 1, 2, 5, [("h", 10)], [("h", 4)], []⟩

/-- Like `backoffLimiter` but with `jitter = 1/2` enabled. -/
def jitterLimiter : RateLimiter :=
  ⟨true, 1, 0, 1/2, 1, 2, 5, [("h", 10)], [("h", 4)], []⟩

/-- The retry strategy of the §8 transient-retry scenario:
`max_retries = 3`, `base_delay = 0.01`, `factor = 2`. -/
def retryScenarioStrategy : RetryStrategy :=
  ⟨3, 2, 1/100, default_retry_on⟩

/-- The §8 transient-retry remote: 503 twice, then 200, run through the
fetcher's own response classification. -/
def retryScenarioOp : Nat → Except CrawlError HttpSuccess := fun i =>
  match classify_response "http://a/page" (if i < 2 then 503 else 200) "body" "text/html" with
  | .ok _ s t ct => .ok ⟨s, t, ct⟩
  | .raised e => .error e

/-- A run of `_record_failure` calls for one domain at the given times. -/
def foldFailures (b : Breaker) (d : String) (ts : List Rat) : Breaker :=
  ts.foldl (fun acc t => acc.record_failure d t) b

/-! # Theorems -/

/-! ## Helper lemmas on the normalizer -/

theorem hash_not_mem_stripFragment (l : List Char) : '#' ∉ stripFragment l := by
  intro hmem
  have := List.mem_takeWhile_imp hmem
  simp at this

theorem stripFragment_of_no_hash {l : List Char} (h : '#' ∉ l) :
    stripFragment l = l := by
  induction l with
  | nil => rfl
  | cons c t ih =>
    simp only [List.mem_cons, not_or] at h
    unfold stripFragment at ih ⊢
    rw [List.takeWhile_cons_of_pos (by simpa using Ne.symm h.1), ih h.2]

theorem mem_rstripSlash {c : Char} {l : List Char} (h : c ∈ rstripSlash l) :
    c ∈ l := by
  unfold rstripSlash at h
  rw [List.mem_reverse] at h
  exact List.mem_reverse.mp (List.dropWhile_subset _ h)

theorem rstripSlash_no_trailing (l : List Char) :
    (rstripSlash l).getLast? ≠ some '/' := by
  unfold rstripSlash
  rw [List.getLast?_reverse]
  intro h
  have hm := List.head?_dropWhile_not (fun c => c = '/') l.reverse
  rw [h] at hm
  simp at hm

theorem rstripSlash_append (l : List Char) :
    rstripSlash l ++ (l.reverse.takeWhile (fun c => c = '/')).reverse = l := by
  unfold rstripSlash
  rw [← List.reverse_append, List.takeWhile_append_dropWhile, List.reverse_reverse]

theorem stripFragment_append (l : List Char) :
    stripFragment l ++ l.dropWhile (fun c => ¬(c = '#')) = l := by
  unfold stripFragment
  simp

theorem normalizeChars_idem (l : List Char) :
    normalizeChars (normalizeChars l) = normalizeChars l := by
  have hmem : '#' ∉ stripFragment l := hash_not_mem_stripFragment l
  unfold normalizeChars
  by_cases hc : (stripFragment l).getLast? = some '/' ∧ 1 < (stripFragment l).length
  · simp only [if_pos hc]
    have h1 : stripFragment (rstripSlash (stripFragment l)) = rstripSlash (stripFragment l) :=
      stripFragment_of_no_hash (fun hm => hmem (mem_rstripSlash hm))
    rw [h1]
    have h2 : ¬((rstripSlash (stripFragment l)).getLast? = some '/' ∧
        1 < (rstripSlash (stripFragment l)).length) := by
      rintro ⟨ha, _⟩
      exact rstripSlash_no_trailing (stripFragment l) ha
    rw [if_neg h2]
  · simp only [if_neg hc]
    rw [stripFragment_of_no_hash hmem, if_neg hc]

/-! ## C9 -/

/-- C9: URL normalization is idempotent, for both the frontier's
`CrawlerQueue._normalize_url` and the fetcher's identical
`AsyncCrawler._normalize_url`. -/
theorem C9_normalize_idempotent (s : String) :
    CrawlerQueue.normalize_url (CrawlerQueue.normalize_url s) =
      CrawlerQueue.normalize_url s ∧
    AsyncCrawler.normalize_url (AsyncCrawler.normalize_url s) =
      AsyncCrawler.normalize_url s := by
  constructor <;>
    simp only [CrawlerQueue.normalize_url, AsyncCrawler.normalize_url,
      normalizeChars_idem]

/-! ## C8 -/

/-- C8 counterexample: the normalizer does not lowercase the host
(`"http://A/"` keeps its capital and also loses its slash although the
whole path is exactly `"/"`), and it strips **all** trailing slashes,
not a single one (`"http://a//"` loses both). -/
theorem C8_counterexample :
    CrawlerQueue.normalize_url "http://A/" = "http://A" ∧
    CrawlerQueue.normalize_url "http://A/" ≠ "http://a/" ∧
    CrawlerQueue.normalize_url "http://A/" ≠ "http://a" ∧
    CrawlerQueue.normalize_url "http://a//" = "http://a" ∧
    CrawlerQueue.normalize_url "http://a//" ≠ "http://a/" := by
  refine ⟨rfl, ?_, ?_, rfl, ?_⟩ <;> decide

/-- C8 amended: the normalizer strips the fragment (everything from the
first `'#'`) and strips **all** trailing `'/'` characters unless the
remaining string is exactly `"/"`; it performs no host lowercasing and
no port handling — the result is a literal prefix of the
fragment-stripped input, so scheme and path case are untouched.  The
fetcher's normalizer is the same function. -/
theorem C8_amended (s : String) :
    '#' ∉ (CrawlerQueue.normalize_url s).data
    ∧ ((CrawlerQueue.normalize_url s).data.getLast? = some '/' →
        CrawlerQueue.normalize_url s = "/")
    ∧ (∃ slashes, (CrawlerQueue.normalize_url s).data ++ slashes = stripFragment s.data
        ∧ ∀ c ∈ slashes, c = '/')
    ∧ (∃ frag, stripFragment s.data ++ frag = s.data)
    ∧ CrawlerQueue.normalize_url s = AsyncCrawler.normalize_url s := by
  have hdata : (CrawlerQueue.normalize_url s).data = normalizeChars s.data := rfl
  have hmem : '#' ∉ stripFragment s.data := hash_not_mem_stripFragment s.data
  refine ⟨?_, ?_, ?_, ⟨_, stripFragment_append s.data⟩, rfl⟩
  · rw [hdata]
    unfold normalizeChars
    by_cases hc : (stripFragment s.data).getLast? = some '/' ∧
        1 < (stripFragment s.data).length
    · rw [if_pos hc]
      exact fun hm => hmem (mem_rstripSlash hm)
    · rw [if_neg hc]
      exact hmem
  · intro hlast
    rw [hdata] at hlast
    unfold normalizeChars at hlast
    by_cases hc : (stripFragment s.data).getLast? = some '/' ∧
        1 < (stripFragment s.data).length
    · rw [if_pos hc] at hlast
      exact absurd hlast (rstripSlash_no_trailing _)
    · rw [if_neg hc] at hlast
      have hlen : (stripFragment s.data).length = 1 := by
        rcases Nat.lt_or_ge 1 (stripFragment s.data).length with h1 | h1
        · exact absurd ⟨hlast, h1⟩ hc
        · have hne : stripFragment s.data ≠ [] := by
            intro hnil; rw [hnil] at hlast; simp at hlast
          have : 0 < (stripFragment s.data).length := List.length_pos.mpr hne
          omega
      obtain ⟨c, hcEq⟩ := List.length_eq_one.mp hlen
      rw [hcEq] at hlast
      simp only [List.getLast?_singleton, Option.some.injEq] at hlast
      show (⟨normalizeChars s.data⟩ : String) = "/"
      have : normalizeChars s.data = ['/'] := by
        unfold normalizeChars
        rw [if_neg hc, hcEq, hlast]
      rw [this]
  · rw [hdata]
    unfold normalizeChars
    by_cases hc : (stripFragment s.data).getLast? = some '/' ∧
        1 < (stripFragment s.data).length
    · rw [if_pos hc]
      refine ⟨((stripFragment s.data).reverse.takeWhile (fun c => c = '/')).reverse,
        rstripSlash_append _, ?_⟩
      intro c hcMem
      rw [List.mem_reverse] at hcMem
      simpa using List.mem_takeWhile_imp hcMem
    · rw [if_neg hc]
      exact ⟨[], by simp, by simp⟩

/-- C8 witness: the amended trailing-slash exception at the concrete
input `"/"`, whose normalization ends in `'/'` and is exactly `"/"`. -/
theorem C8_witness : CrawlerQueue.normalize_url "/" = "/" :=
  (C8_amended "/").2.1 (by decide)

/-! ## C1 -/

/-- C1 counterexample: after `add_url "http://a/x"`, a dequeue, and
`mark_processed "http://a/x"`, the URL is in the processed set, yet
`add_url` accepts it again and returns `True` — the claim says the
processed set blocks re-adding with return `False`. -/
theorem C1_counterexample :
    processedThenState.processed_urls.contains "http://a/x" = true ∧
    (processedThenState.add_url "http://a/x" 0).1 = true ∧
    (processedThenState.add_url "http://a/x" 0).2.queued_urls.contains "http://a/x" = true := by
  refine ⟨?_, ?_, ?_⟩ <;> decide

/-- C1 amended: `add_url` consults only the queued set — it returns true
iff the normalized URL is not currently queued (URLs previously dequeued
and marked processed or failed do not block re-adding), and when it
returns false the frontier is unchanged. -/
theorem C1_amended (q : CrawlerQueue) (url : String) (priority : Int) :
    ((q.add_url url priority).1 = true ↔
      CrawlerQueue.normalize_url url ∉ q.queued_urls)
    ∧ ((q.add_url url priority).1 = false → (q.add_url url priority).2 = q) := by
  unfold CrawlerQueue.add_url
  by_cases h : CrawlerQueue.normalize_url url ∈ q.queued_urls <;> simp [h]

/-- C1 witness: the amended statement instantiated at the fresh queue. -/
theorem C1_witness :
    (((CrawlerQueue.empty.add_url "http://a/x" 0).1 = true ↔
      CrawlerQueue.normalize_url "http://a/x" ∉ CrawlerQueue.empty.queued_urls)
    ∧ ((CrawlerQueue.empty.add_url "http://a/x" 0).1 = false →
        (CrawlerQueue.empty.add_url "http://a/x" 0).2 = CrawlerQueue.empty)) :=
  C1_amended CrawlerQueue.empty "http://a/x" 0

/-! ## C10 -/

theorem add_url_counts (q : CrawlerQueue) (url : String) (p : Int) :
    (q.add_url url p).2.processed_count = q.processed_count ∧
    (q.add_url url p).2.failed_count = q.failed_count := by
  unfold CrawlerQueue.add_url
  by_cases h : CrawlerQueue.normalize_url url ∈ q.queued_urls <;> simp [h]

theorem get_next_counts (q : CrawlerQueue) :
    q.get_next.2.processed_count = q.processed_count ∧
    q.get_next.2.failed_count = q.failed_count := by
  unfold CrawlerQueue.get_next
  repeat' split
  all_goals exact ⟨rfl, rfl⟩

theorem runOps_counts (ops : List QueueOp) : ∀ q : CrawlerQueue,
    (ops.foldl CrawlerQueue.applyOp q).processed_count
        = q.processed_count + ops.countP (fun o => o.isMarkProcessed) ∧
    (ops.foldl CrawlerQueue.applyOp q).failed_count
        = q.failed_count + ops.countP (fun o => o.isMarkFailed) := by
  induction ops with
  | nil => intro q; simp
  | cons o t ih =>
    intro q
    rw [List.foldl_cons, List.countP_cons, List.countP_cons]
    obtain ⟨ih1, ih2⟩ := ih (q.applyOp o)
    refine ⟨ih1.trans ?_, ih2.trans ?_⟩ <;> cases o <;>
      simp [CrawlerQueue.applyOp, QueueOp.isMarkProcessed, QueueOp.isMarkFailed,
        CrawlerQueue.mark_processed, CrawlerQueue.mark_failed,
        (add_url_counts q _ _).1, (add_url_counts q _ _).2,
        (get_next_counts q).1, (get_next_counts q).2] <;> omega

/-- C10: the `processed`/`failed` entries of `get_stats` count
`mark_processed`/`mark_failed` calls (marking the same URL twice counts
twice, so they can exceed the deduplicating URL maps — the concrete
conjuncts show processed = 2 with a single processed URL), and `total`
is always `queued + processed + failed`. -/
theorem C10_stats_count_events (ops : List QueueOp) :
    (runOps ops).get_stats.processed = ops.countP (fun o => o.isMarkProcessed)
    ∧ (runOps ops).get_stats.failed = ops.countP (fun o => o.isMarkFailed)
    ∧ (runOps ops).get_stats.total =
        (runOps ops).get_stats.queued + (runOps ops).get_stats.processed +
          (runOps ops).get_stats.failed
    ∧ (runOps [.add "http://a/x" 0, .markProcessed "http://a/x",
        .markProcessed "http://a/x"]).get_stats.processed = 2
    ∧ (runOps [.add "http://a/x" 0, .markProcessed "http://a/x",
        .markProcessed "http://a/x"]).get_stats.processed_urls = 1 := by
  obtain ⟨h1, h2⟩ := runOps_counts ops CrawlerQueue.empty
  exact ⟨by simpa [CrawlerQueue.empty] using h1,
    by simpa [CrawlerQueue.empty] using h2, rfl, by decide, by decide⟩

/-! ## C2 -/

/-- C2 counterexample: a 408 response raises a **Permanent** error (the
generic 4xx branch), not the Transient the claim requires, and 502/504
responses are returned as **success**, not raised as Transient. -/
theorem C2_counterexample :
    classify_response "http://a/p" 408 "b" "ct" = .raised (.permanent "HTTP 408")
    ∧ classify_response "http://a/p" 408 "b" "ct" ≠ .raised (.transient "HTTP 408")
    ∧ classify_response "http://a/p" 502 "b" "ct" = .ok "http://a/p" 502 "b" "ct"
    ∧ classify_response "http://a/p" 504 "b" "ct" = .ok "http://a/p" 504 "b" "ct" := by
  refine ⟨by decide, by decide, by decide, by decide⟩

/-- C2 amended: per attempt, exactly the statuses {429, 500, 503} raise a
Transient error; every other 4xx (401, 403, 404, and also 408) raises a
Permanent error; every status outside 4xx other than 500 and 503 — all
2xx/3xx, and also 502/504 and the remaining 5xx — is returned as success
with (status, body, content type). -/
theorem C2_amended (url : String) (status : Nat) (text ct : String) :
    ((status = 429 ∨ status = 500 ∨ status = 503) →
      classify_response url status text ct =
        .raised (.transient ("HTTP " ++ toString status)))
    ∧ (400 ≤ status → status < 500 → status ≠ 429 →
      classify_response url status text ct =
        .raised (.permanent ("HTTP " ++ toString status)))
    ∧ (¬(400 ≤ status ∧ status < 500) → status ≠ 500 → status ≠ 503 →
      classify_response url status text ct = .ok url status text ct) := by
  refine ⟨?_, ?_, ?_⟩
  · intro h
    have hcond : status = 429 ∨ status = 503 ∨ status = 500 := by omega
    simp only [classify_response, if_pos hcond]
  · intro h1 h2 h3
    have hne : ¬(status = 429 ∨ status = 503 ∨ status = 500) := by omega
    by_cases h4 : status = 404 ∨ status = 403 ∨ status = 401
    · simp only [classify_response, if_neg hne, if_pos h4]
    · simp only [classify_response, if_neg hne, if_neg h4, if_pos (And.intro h1 h2)]
  · intro h1 h2 h3
    have hne : ¬(status = 429 ∨ status = 503 ∨ status = 500) := by omega
    have h4 : ¬(status = 404 ∨ status = 403 ∨ status = 401) := by omega
    simp only [classify_response, if_neg hne, if_neg h4, if_neg h1]

/-- C2 witness: the amended classification evaluated at statuses 429
(Transient), 408 (Permanent), and 200 (success). -/
theorem C2_witness :
    classify_response "u" 429 "b" "c" = .raised (.transient "HTTP 429")
    ∧ classify_response "u" 408 "b" "c" = .raised (.permanent "HTTP 408")
    ∧ classify_response "u" 200 "b" "c" = .ok "u" 200 "b" "c" :=
  ⟨(C2_amended "u" 429 "b" "c").1 (Or.inl rfl),
   (C2_amended "u" 408 "b" "c").2.1 (by decide) (by decide) (by decide),
   (C2_amended "u" 200 "b" "c").2.2 (by decide) (by decide) (by decide)⟩

/-! ## C3 -/

/-- C3 (code bug): running the §8 depth-limit scenario — seeds
`["http://a/"]`, `max_depth = 1`, `/` links to `/x` and `/x#frag`, `/x`
links to `/y` — the code ends with **1** processed URL (`"http://a"`
only), not the claimed 2: `_should_process_url` rejects children with
`depth + 1 >= max_depth`, so `/x` is never enqueued (the final conjunct
is exactly the check the repository's own day3 test asserts to be true,
and it evaluates to false).  `/y` is indeed never added. -/
theorem C3_depth_scenario_behavior :
    depthScenarioResult.queue.get_stats.processed = 1
    ∧ depthScenarioResult.queue.get_stats.queued = 0
    ∧ depthScenarioResult.queue.get_stats.failed = 0
    ∧ depthScenarioResult.queue.processed_urls = ["http://a"]
    ∧ depthScenarioResult.queue.queued_urls.contains "http://a/x" = false
    ∧ depthScenarioResult.queue.queued_urls.contains "http://a/y" = false
    ∧ (depthScenarioResult.url_depths.lookup "http://a/x").isNone = true
    ∧ (depthScenarioResult.url_depths.lookup "http://a/y").isNone = true
    ∧ AsyncCrawler.should_process_url depthScenarioCfg CrawlerQueue.empty []
        "https://example.com/page2" 1 ["example.com"] = false := by
  refine ⟨?_, ?_, ?_, ?_, ?_, ?_, ?_, ?_, ?_⟩ <;> decide

/-! ## C4 -/

theorem fetch_robots_hit (rp : RobotsParser) (base : String)
    (net : String → NetReply) (p : RobotRules)
    (h : rp.cache.lookup (get_domain base) = some p) :
    rp.fetch_robots base net = (some p, rp, []) := by
  unfold RobotsParser.fetch_robots
  simp only [h]

theorem fetch_robots_miss_fail (rp : RobotsParser) (base : String)
    (net : String → NetReply)
    (h1 : rp.cache.lookup (get_domain base) = none)
    (h2 : robotsFailed (net (rstripSlashStr base ++ "/robots.txt")) = true) :
    rp.fetch_robots base net = (none, rp, [rstripSlashStr base ++ "/robots.txt"]) := by
  unfold RobotsParser.fetch_robots
  rcases hr : net (rstripSlashStr base ++ "/robots.txt") with ⟨st, rules⟩ | _
  · rw [hr] at h2
    simp only [robotsFailed] at h2
    simp only [h1, hr, if_pos (of_decide_eq_true h2)]
  · simp only [h1, hr]

theorem fetch_robots_miss_ok (rp : RobotsParser) (base : String)
    (net : String → NetReply) (st : Nat) (rules : RobotRules)
    (h1 : rp.cache.lookup (get_domain base) = none)
    (h2 : net (rstripSlashStr base ++ "/robots.txt") = .response st rules)
    (h3 : st < 400) :
    rp.fetch_robots base net =
      (some rules, { rp with cache := rp.cache ++ [(get_domain base, rules)] },
       [rstripSlashStr base ++ "/robots.txt"]) := by
  unfold RobotsParser.fetch_robots
  simp only [h1, h2, if_neg (by omega : ¬(400 ≤ st))]

/-- C4 counterexample: against a network whose robots.txt always answers
404 (status ≥ 400), the first `can_fetch` for host `h` issues one fetch,
stores **nothing** in the cache, and the second `can_fetch` for the same
host issues a second fetch — the claim says a sentinel is cached so no
later fetch is ever issued. -/
theorem C4_counterexample :
    robotsFirstCall.2.2 = ["https://h/robots.txt"]
    ∧ robotsFirstCall.2.1.cache.isEmpty = true
    ∧ robotsSecondCall.2.2 = ["https://h/robots.txt"]
    ∧ robotsFirstCall.1 = true ∧ robotsSecondCall.1 = true := by
  refine ⟨?_, ?_, ?_, ?_, ?_⟩ <;> decide

/-- C4 amended: a cached host is answered with no further fetch; a cache
miss whose robots fetch errors or returns status ≥ 400 yields `true`
(allow) but caches **no** sentinel — the state is returned unchanged, so
each later `can_fetch` for that host fetches again; only a successful
fetch (status < 400) is cached, once, under the host's domain.
(`hd` pins the domain's stability under `"https://" ++ ·`, which holds
for ordinary hosts.) -/
theorem C4_amended (rp : RobotsParser) (url : String)
    (net : String → NetReply) (ua : Option String)
    (hd : get_domain ("https://" ++ get_domain url) = get_domain url) :
    (∀ p, rp.cache.lookup (get_domain url) = some p →
      rp.can_fetch url net ua = (p.canFetchFn (ua.getD rp.user_agent) url, rp, []))
    ∧ (rp.cache.lookup (get_domain url) = none →
       robotsFailed (net (rstripSlashStr ("https://" ++ get_domain url) ++ "/robots.txt")) = true →
       rp.can_fetch url net ua =
         (true, rp, [rstripSlashStr ("https://" ++ get_domain url) ++ "/robots.txt"]))
    ∧ (∀ st rules, rp.cache.lookup (get_domain url) = none →
       net (rstripSlashStr ("https://" ++ get_domain url) ++ "/robots.txt") = .response st rules →
       st < 400 →
       rp.can_fetch url net ua =
         (rules.canFetchFn (ua.getD rp.user_agent) url,
          { rp with cache := rp.cache ++ [(get_domain url, rules)] },
          [rstripSlashStr ("https://" ++ get_domain url) ++ "/robots.txt"])) := by
  refine ⟨?_, ?_, ?_⟩
  · intro p hp
    unfold RobotsParser.can_fetch
    simp only [hp]
  · intro h1 h2
    unfold RobotsParser.can_fetch
    simp only [h1, fetch_robots_miss_fail rp _ net (by rw [hd]; exact h1) h2]
  · intro st rules h1 h2 h3
    unfold RobotsParser.can_fetch
    simp only [h1, fetch_robots_miss_ok rp _ net st rules (by rw [hd]; exact h1) h2 h3, hd]

/-- C4 witness: the amended miss-and-fail case at host `h` against the
404 network: allow, one fetch, unchanged state. -/
theorem C4_witness :
    (RobotsParser.mk "UA" []).can_fetch "http://h/x" robots404Net none
      = (true, RobotsParser.mk "UA" [], ["https://h/robots.txt"]) :=
  (C4_amended ⟨"UA", []⟩ "http://h/x" robots404Net none (by decide)).2.1 rfl (by decide)

/-! ## C5 -/

theorem lookup_dictUpsert {β : Type} (d : List (String × β)) (k : String) (v : β) :
    (dictUpsert d k v).lookup k = some v := by
  induction d with
  | nil => simp [dictUpsert, List.lookup]
  | cons e t ih =>
    by_cases he : e.1 = k
    · simp [dictUpsert, List.any_cons, he, List.lookup]
    · have hke : (k == e.1) = false :=
        beq_eq_false_iff_ne.mpr (fun hh => he hh.symm)
      by_cases ht : t.any (fun x => x.1 == k)
      · have ih2 := ih
        simp [dictUpsert, ht] at ih2
        simp [dictUpsert, List.any_cons, he, ht, List.lookup, hke, ih2]
      · have ih2 := ih
        simp [dictUpsert, ht] at ih2
        simp [dictUpsert, List.any_cons, he, ht, List.lookup, hke, ih2]

/-- C5 counterexample: with `interval = 1`, no jitter, 4 recorded errors,
`backoff_base = 1`, factor 2, cap 5, and `now = last`, the code sleeps
`max(1, 5) = 5`; the claim's additive formula demands
`max(0, 1) + 0 + min(1·2³, 5) = 6`. -/
theorem C5_counterexample :
    backoffLimiter.compute_sleep "h" 10 0 = 5
    ∧ max (0:Rat) (10 + max 1 0 - 10) + 0 +
        min (1 * 2 ^ (4 - 1) : Rat) 5 = 6
    ∧ (5:Rat) ≠ 6 := by
  refine ⟨?_, ?_, by norm_num⟩
  · simp only [RateLimiter.compute_sleep, backoffLimiter, dictGetD, List.lookup]
    norm_num [max_def, min_def]
  · norm_num [max_def, min_def]

/-- C5 amended: with jitter enabled, a positive `backoff_base` and a
positive error count, `acquire`'s sleep is the **maximum** (not the sum)
of `max(0, last + max(interval, min_delay) − now) + jitter_sample` and
the capped backoff `min(backoff_base · factor^(errors−1), backoff_max)`;
afterwards `last_call` holds the post-sleep time and the sleep is
recorded in `delays`. -/
theorem C5_amended (rl : RateLimiter) (dom : Option String) (now js : Rat)
    (hj : 0 < rl.jitter) (hb : 0 < rl.backoff_base)
    (he : 0 < dictGetD rl.error_counts (rl.bucket_key dom) 0) :
    rl.compute_sleep (rl.bucket_key dom) now js =
      max (max 0 (dictGetD rl.last_call (rl.bucket_key dom) 0 +
            max rl.interval rl.min_delay - now) + js)
          (min (rl.backoff_base * rl.backoff_factor ^
              (dictGetD rl.error_counts (rl.bucket_key dom) 0 - 1)) rl.backoff_max)
    ∧ (rl.acquire dom now js).last_call.lookup (rl.bucket_key dom) =
        some (if 0 < rl.compute_sleep (rl.bucket_key dom) now js
              then now + rl.compute_sleep (rl.bucket_key dom) now js else now)
    ∧ (rl.acquire dom now js).delays =
        rl.delays ++ [rl.compute_sleep (rl.bucket_key dom) now js] := by
  refine ⟨?_, ?_, ?_⟩
  · simp only [RateLimiter.compute_sleep, if_pos hj, if_pos (And.intro hb he)]
    have key : max 0 (max (rl.interval - (now - dictGetD rl.last_call (rl.bucket_key dom) 0))
          (rl.min_delay - (now - dictGetD rl.last_call (rl.bucket_key dom) 0)))
        = max 0 (dictGetD rl.last_call (rl.bucket_key dom) 0 +
            max rl.interval rl.min_delay - now) := by
      rw [max_sub_sub_right]
      congr 1
      ring
    rw [key]
  · simp only [RateLimiter.acquire, lookup_dictUpsert]
  · simp only [RateLimiter.acquire]

/-- C5 witness: the amended formula evaluated on the concrete
`jitterLimiter` bucket `"h"` at `now = 10` with jitter sample `1/4`. -/
theorem C5_witness :
    jitterLimiter.compute_sleep (jitterLimiter.bucket_key (some "h")) 10 (1/4) =
      max (max 0 (dictGetD jitterLimiter.last_call (jitterLimiter.bucket_key (some "h")) 0 +
            max jitterLimiter.interval jitterLimiter.min_delay - 10) + 1/4)
          (min (jitterLimiter.backoff_base * jitterLimiter.backoff_factor ^
              (dictGetD jitterLimiter.error_counts (jitterLimiter.bucket_key (some "h")) 0 - 1))
            jitterLimiter.backoff_max) :=
  (C5_amended jitterLimiter (some "h") 10 (1/4) (by norm_num [jitterLimiter])
    (by norm_num [jitterLimiter]) (by decide)).1

/-! ## Retry-loop step lemmas (shared by C6's witness and C7) -/

theorem run_from_retries {α : Type} (rs : RetryStrategy)
    (op : Nat → Except CrawlError α) (i : Nat) (ds : List Rat) (e : CrawlError)
    (h : op i = .error e) (hr : rs.retry_on e = true) (hi : i < rs.max_retries) :
    rs.run_from op i ds =
      rs.run_from op (i + 1) (ds ++ [rs.base_delay * rs.backoff_factor ^ i]) := by
  rw [RetryStrategy.run_from]
  simp only [h]
  rw [dif_neg (by simp [hr]; omega)]

theorem run_from_no_retry {α : Type} (rs : RetryStrategy)
    (op : Nat → Except CrawlError α) (i : Nat) (ds : List Rat) (e : CrawlError)
    (h : op i = .error e) (hstop : rs.max_retries ≤ i ∨ rs.retry_on e = false) :
    rs.run_from op i ds = (.error e, ds) := by
  rw [RetryStrategy.run_from]
  simp only [h]
  rw [dif_pos hstop]

theorem run_from_ok {α : Type} (rs : RetryStrategy)
    (op : Nat → Except CrawlError α) (i : Nat) (ds : List Rat) (a : α)
    (h : op i = .ok a) : rs.run_from op i ds = (.ok a, ds) := by
  rw [RetryStrategy.run_from]
  simp only [h]

/-- Two 503s then a 200 under `max_retries = 3`, `base_delay = 1/100`,
`factor = 2`: the run succeeds and records the delays `[1/100, 1/50]`. -/
theorem retryScenario_eval :
    retryScenarioStrategy.execute_with_retry retryScenarioOp =
      (.ok ⟨200, "body", "text/html"⟩, [1/100, 1/50]) := by
  have h0 : retryScenarioOp 0 = .error (.transient "HTTP 503") := rfl
  have h1 : retryScenarioOp 1 = .error (.transient "HTTP 503") := rfl
  have h2 : retryScenarioOp 2 = .ok ⟨200, "body", "text/html"⟩ := rfl
  unfold RetryStrategy.execute_with_retry
  rw [run_from_retries retryScenarioStrategy retryScenarioOp 0 [] _ h0 rfl (by decide)]
  rw [run_from_retries retryScenarioStrategy retryScenarioOp 1 _ _ h1 rfl (by decide)]
  rw [run_from_ok retryScenarioStrategy retryScenarioOp 2 _ _ h2]
  norm_num [retryScenarioStrategy]

/-! ## C6 -/

theorem dictGetD_dictUpsert {β : Type} (d : List (String × β)) (k : String)
    (v dflt : β) : dictGetD (dictUpsert d k v) k dflt = v := by
  simp [dictGetD, lookup_dictUpsert]

theorem record_failure_count (b : Breaker) (d : String) (t : Rat) :
    (dictGetD (b.record_failure d t).circuit_state d ⟨0, 0⟩).fail_count =
      (dictGetD b.circuit_state d ⟨0, 0⟩).fail_count + 1 := by
  simp only [Breaker.record_failure, dictGetD_dictUpsert]
  split <;> rfl

theorem record_failure_opens (b : Breaker) (d : String) (t : Rat)
    (h : b.threshold ≤ (dictGetD b.circuit_state d ⟨0, 0⟩).fail_count + 1) :
    (dictGetD (b.record_failure d t).circuit_state d ⟨0, 0⟩).open_until =
      t + b.cooldown := by
  simp only [Breaker.record_failure, dictGetD_dictUpsert]
  rw [if_pos h]

theorem record_failure_fixed (b : Breaker) (d : String) (t : Rat) :
    (b.record_failure d t).threshold = b.threshold ∧
    (b.record_failure d t).cooldown = b.cooldown := ⟨rfl, rfl⟩

theorem foldFailures_fixed (d : String) (ts : List Rat) : ∀ b : Breaker,
    (foldFailures b d ts).threshold = b.threshold ∧
    (foldFailures b d ts).cooldown = b.cooldown := by
  induction ts with
  | nil => intro b; exact ⟨rfl, rfl⟩
  | cons t ts ih =>
    intro b
    simpa only [foldFailures, List.foldl_cons] using ih (b.record_failure d t)

theorem foldFailures_count (d : String) (ts : List Rat) : ∀ b : Breaker,
    (dictGetD (foldFailures b d ts).circuit_state d ⟨0, 0⟩).fail_count =
      (dictGetD b.circuit_state d ⟨0, 0⟩).fail_count + ts.length := by
  induction ts with
  | nil => intro b; simp [foldFailures]
  | cons t ts ih =>
    intro b
    have := ih (b.record_failure d t)
    simp only [foldFailures, List.foldl_cons] at this ⊢
    rw [this, record_failure_count]
    simp [Nat.add_assoc, Nat.add_comm 1 ts.length]

theorem record_success_state (b : Breaker) (d : String) :
    dictGetD (b.record_success d).circuit_state d ⟨0, 0⟩ = ⟨0, 0⟩ := by
  unfold Breaker.record_success
  cases hl : b.circuit_state.lookup d with
  | none => simp [dictGetD, hl]
  | some st => simp [hl, dictGetD_dictUpsert]

/-- C6: (1) once the accumulated consecutive failures for a host reach
the threshold, `_record_failure` sets `open_until` to the failure time
plus the cooldown; (2) any `fetch_url` for a URL of a host whose breaker
is open (`now < open_until`) returns the distinguished `"circuit_open"`
error immediately, issuing zero HTTP attempts and leaving all state
unchanged; (3) a fetch whose retry pipeline succeeds resets the host's
failure count and `open_until` to 0. -/
theorem C6_circuit_breaker (b : Breaker) (d url : String) (ts : List Rat)
    (t now : Rat) (rs : RetryStrategy) (rr ra : Bool)
    (op : Nat → Except CrawlError HttpSuccess) :
    (b.threshold ≤ (dictGetD b.circuit_state d ⟨0, 0⟩).fail_count + ts.length + 1 →
      (dictGetD (foldFailures b d (ts ++ [t])).circuit_state d ⟨0, 0⟩).open_until =
        t + b.cooldown)
    ∧ (b.circuit_is_open (get_domain url) now = true →
      AsyncCrawler.fetch_url b rs rr ra url now op =
        (.errorResult url "circuit_open", b, 0))
    ∧ (∀ p delays, b.circuit_is_open (get_domain url) now = false → rr = false →
      rs.execute_with_retry op = (.ok p, delays) →
      dictGetD (AsyncCrawler.fetch_url b rs rr ra url now op).2.1.circuit_state
        (get_domain url) ⟨0, 0⟩ = ⟨0, 0⟩) := by
  refine ⟨?_, ?_, ?_⟩
  · intro h
    have happ : foldFailures b d (ts ++ [t]) =
        (foldFailures b d ts).record_failure d t := by
      simp [foldFailures, List.foldl_append]
    rw [happ]
    have hcount := foldFailures_count d ts b
    have hth := (foldFailures_fixed d ts b).1
    have hcd := (foldFailures_fixed d ts b).2
    rw [record_failure_opens _ d t (by rw [hth, hcount]; omega), hcd]
  · intro h
    simp only [AsyncCrawler.fetch_url, h, if_pos]
  · intro p delays hopen hrr hexec
    simp only [AsyncCrawler.fetch_url, hopen, hrr, Bool.false_and, hexec]
    simp [record_success_state]

/-- C6 witness: with `threshold = 2`, `cooldown = 1`, two failures at
times 0 and 1 open the breaker until 2; a URL of host `h` dispatched at
`now = 3/2` is rejected as `circuit_open` with zero HTTP attempts; and a
successful pipeline resets the host's entry to zeroes. -/
theorem C6_witness :
    (dictGetD (foldFailures ⟨2, 1, []⟩ "h" ([0] ++ [1])).circuit_state "h" ⟨0, 0⟩).open_until
        = 1 + (1 : Rat)
    ∧ AsyncCrawler.fetch_url ⟨2, 1, [("h", ⟨2, 2⟩)]⟩ retryScenarioStrategy false true
        "http://h/x" (3/2) retryScenarioOp
        = (.errorResult "http://h/x" "circuit_open", ⟨2, 1, [("h", ⟨2, 2⟩)]⟩, 0)
    ∧ dictGetD (AsyncCrawler.fetch_url ⟨2, 1, []⟩ retryScenarioStrategy false true
        "http://h/x" 0 retryScenarioOp).2.1.circuit_state "h" ⟨0, 0⟩ = ⟨0, 0⟩ :=
  ⟨(C6_circuit_breaker ⟨2, 1, []⟩ "h" "http://h/x" [0] 1 0 retryScenarioStrategy
      false true retryScenarioOp).1 (by decide),
   (C6_circuit_breaker ⟨2, 1, [("h", ⟨2, 2⟩)]⟩ "h" "http://h/x" [] 0 (3/2)
      retryScenarioStrategy false true retryScenarioOp).2.1
      (by
        have hg : get_domain "http://h/x" = "h" := rfl
        simp only [Breaker.circuit_is_open, hg, List.lookup, beq_self_eq_true]
        norm_num),
   (C6_circuit_breaker ⟨2, 1, []⟩ "h" "http://h/x" [] 0 0 retryScenarioStrategy
      false true retryScenarioOp).2.2 ⟨200, "body", "text/html"⟩ [1/100, 1/50]
      (by decide) rfl retryScenario_eval⟩

/-! ## C7 -/

/-- C7: one step of `execute_with_retry` — a raised error whose kind is
retryable (`retry_on`, i.e. Transient or Network) with `i < max_retries`
records the delay `base_delay · factor^i` and retries at `i + 1`; a
non-retryable kind or an exhausted budget surfaces the error; a normal
return is the result.  In the concrete §8 scenario (503 twice then 200,
`max_retries = 3`, `base_delay = 0.01`, `factor = 2`) the outcome is
success with recorded delays `[0.01, 0.02]`. -/
theorem C7_retry_executor {α : Type} (rs : RetryStrategy)
    (op : Nat → Except CrawlError α) (i : Nat) (ds : List Rat)
    (e : CrawlError) (a : α) :
    (op i = .error e → rs.retry_on e = true → i < rs.max_retries →
      rs.run_from op i ds =
        rs.run_from op (i + 1) (ds ++ [rs.base_delay * rs.backoff_factor ^ i]))
    ∧ (op i = .error e → rs.retry_on e = false →
      rs.run_from op i ds = (.error e, ds))
    ∧ (op i = .error e → rs.max_retries ≤ i →
      rs.run_from op i ds = (.error e, ds))
    ∧ (op i = .ok a → rs.run_from op i ds = (.ok a, ds))
    ∧ retryScenarioStrategy.execute_with_retry retryScenarioOp =
        (.ok ⟨200, "body", "text/html"⟩, [1/100, 1/50]) :=
  ⟨fun h hr hi => run_from_retries rs op i ds e h hr hi,
   fun h hr => run_from_no_retry rs op i ds e h (Or.inr hr),
   fun h hi => run_from_no_retry rs op i ds e h (Or.inl hi),
   fun h => run_from_ok rs op i ds a h,
   retryScenario_eval⟩

/-- C7 witness: the retry step at attempt 0 of the concrete scenario —
the first 503 is retried with recorded delay `1/100 · 2⁰`. -/
theorem C7_witness :
    retryScenarioStrategy.run_from retryScenarioOp 0 [] =
      retryScenarioStrategy.run_from retryScenarioOp (0 + 1)
        ([] ++ [retryScenarioStrategy.base_delay *
          retryScenarioStrategy.backoff_factor ^ 0]) :=
  (C7_retry_executor retryScenarioStrategy retryScenarioOp 0 []
      (.transient "HTTP 503") ⟨200, "body", "text/html"⟩).1 rfl rfl (by decide)

end Crawler
